import Mathlib

/-!
Verification of the DinoGen round-lifecycle controller.

This file is a shallow embedding, in Lean 4, of the logical core of the
DinoGen trivia application:

* `src/types.ts`     : the data model (`DinoQuestion`, `GameState`, `AppStatus`);
* `src/App.tsx`      : the round lifecycle controller (`fetchRoundData`,
  `preloadNextQuestion`, `loadNewQuestion`, `handleAnswer`, the `RANKS`
  table and `currentRank`);
* `src/services/gemini.ts` : the remote-call wrappers (`generateDinoData`,
  `generateDinoImage`).

React state hooks are modelled by explicit state passing over a record
`Ctrl` holding every `useState` cell plus the `nextRoundPromise` ref.
Asynchronous remote calls are modelled by oracles: a round-fetch outcome is
an `Option (DinoQuestion × String)` (`none` is the `null` that
`fetchRoundData` returns from its catch-all handler), and the single-slot
prefetch promise is modelled by the outcome it will eventually resolve to.
A ghost counter `fetchesIssued` counts how many round-fetch compositions
have been started; it is written only where the source calls
`fetchRoundData()`.
-/

namespace DinoGame

/-- `DinoQuestion` from `src/types.ts`. -/
structure DinoQuestion where
  correctName : String
  distractors : List String
  funFact : String
  visualDescription : String
deriving DecidableEq

/-- `GameState` (the player stats record) from `src/types.ts`. -/
structure GameState where
  correct : Nat
  incorrect : Nat
  streak : Nat
deriving DecidableEq

/-- `AppStatus` from `src/types.ts`. -/
inductive AppStatus where
  | IDLE
  | LOADING_QUESTION
  | READY_TO_ANSWER
  | ANSWERED
  | ERROR
deriving DecidableEq

/-! ### The in-place shuffle of `loadNewQuestion` (src/App.tsx lines 104-109)

The source builds `options = [...data.distractors, data.correctName]` and
runs a Fisher–Yates loop: for `i` from `options.length - 1` down to `1` it
draws `j = Math.floor(Math.random() * (i + 1))` (so `0 ≤ j ≤ i`) and swaps
`options[i]` with `options[j]`.  The random draws are modelled by an oracle
`rand : Nat → Nat` giving the `j` drawn at loop index `i`, subject to
`rand i ≤ i`. -/

/-- The destructuring swap `[options[i], options[j]] = [options[j], options[i]]`.
Both indices are in range whenever the source executes it; out-of-range
lookups leave the list unchanged. -/
def swapIdx (l : List α) (i j : Nat) : List α :=
  match l[i]?, l[j]? with
  | some a, some b => (l.set i b).set j a
  | _, _ => l

/-- The loop `for (let i = …; i > 0; i--)`: `fyFrom rand n l` performs the
swaps for loop indices `n, n-1, …, 1`. -/
def fyFrom (rand : Nat → Nat) : Nat → List α → List α
  | 0, l => l
  | i + 1, l => fyFrom rand i (swapIdx l (i + 1) (rand (i + 1)))

/-- The whole shuffle: the loop starts at `options.length - 1`. -/
def shuffleOptions (rand : Nat → Nat) (l : List α) : List α :=
  fyFrom rand (l.length - 1) l

/-- The unshuffled option list `[...data.distractors, data.correctName]`. -/
def mkOptions (d : DinoQuestion) : List String :=
  d.distractors ++ [d.correctName]

theorem swapIdx_perm [DecidableEq α] (l : List α) (i j : Nat) :
    (swapIdx l i j).Perm l := by
  unfold swapIdx
  split
  · next a b hi hj =>
    obtain ⟨hi', hia⟩ := List.getElem?_eq_some.1 hi
    obtain ⟨hj', hjb⟩ := List.getElem?_eq_some.1 hj
    subst hia
    subst hjb
    rw [List.perm_iff_count]
    intro x
    by_cases hij : i = j
    · subst hij
      rw [List.set_set, List.count_set _ _ _ _ hi']
      by_cases hx : l[i] = x
      · have hmem : x ∈ l := hx ▸ List.getElem_mem hi'
        have hpos : 0 < List.count x l := List.count_pos_iff.2 hmem
        simp [hx]
        omega
      · simp [hx]
    · have hj2 : j < (l.set i l[j]).length := by
        rw [List.length_set]
        exact hj'
      have hget : (l.set i l[j])[j] = l[j] := by
        rw [List.getElem_set]
        simp [hij]
      rw [List.count_set _ _ _ _ hj2, hget, List.count_set _ _ _ _ hi']
      have hc1 : l[i] = x → 0 < List.count x l := fun h =>
        List.count_pos_iff.2 (h ▸ List.getElem_mem hi')
      have hc2 : l[j] = x → 0 < List.count x l := fun h =>
        List.count_pos_iff.2 (h ▸ List.getElem_mem hj')
      by_cases h1 : l[i] = x <;> by_cases h2 : l[j] = x
      · have k1 := hc1 h1
        simp only [h1, h2, beq_self_eq_true, if_true]
        omega
      · have k1 := hc1 h1
        have hne : (l[j] == x) = false := by
          simp [h2]
        simp only [h1, hne, beq_self_eq_true, if_true, Bool.false_eq_true, if_false]
        omega
      · have k2 := hc2 h2
        have hne : (l[i] == x) = false := by
          simp [h1]
        simp only [h2, hne, beq_self_eq_true, if_true, Bool.false_eq_true, if_false]
        omega
      · have hne1 : (l[i] == x) = false := by
          simp [h1]
        have hne2 : (l[j] == x) = false := by
          simp [h2]
        simp only [hne1, hne2, Bool.false_eq_true, if_false]
        omega
  · exact List.Perm.refl l

theorem fyFrom_perm [DecidableEq α] (rand : Nat → Nat) :
    ∀ (n : Nat) (l : List α), (fyFrom rand n l).Perm l := by
  intro n
  induction n with
  | zero => intro l; exact List.Perm.refl l
  | succ i ih =>
    intro l
    exact (ih (swapIdx l (i + 1) (rand (i + 1)))).trans
      (swapIdx_perm l (i + 1) (rand (i + 1)))

theorem shuffleOptions_perm [DecidableEq α] (rand : Nat → Nat) (l : List α) :
    (shuffleOptions rand l).Perm l :=
  fyFrom_perm rand (l.length - 1) l

/-- C1: for every `RoundData` with 3 distractors, the shuffled option array
installed on a round is a permutation of `distractors ++ [correctName]`:
it has length 4, and (when no distractor equals the correct name) contains
`correctName` exactly once; it is produced by the Fisher–Yates loop
modelled by `shuffleOptions`. -/
theorem optionSet_perm_of_roundData (d : DinoQuestion) (rand : Nat → Nat)
    (h3 : d.distractors.length = 3) (hran : ∀ i, rand i ≤ i) :
    (shuffleOptions rand (mkOptions d)).length = 4 ∧
    (shuffleOptions rand (mkOptions d)).Perm (d.distractors ++ [d.correctName]) ∧
    (d.correctName ∉ d.distractors →
      (shuffleOptions rand (mkOptions d)).count d.correctName = 1) := by
  have hperm : (shuffleOptions rand (mkOptions d)).Perm
      (d.distractors ++ [d.correctName]) :=
    shuffleOptions_perm rand (mkOptions d)
  clear hran
  refine ⟨?_, hperm, ?_⟩
  · rw [hperm.length_eq]
    simp [h3]
  · intro hnot
    rw [hperm.count_eq]
    rw [List.count_append]
    have h0 : List.count d.correctName d.distractors = 0 :=
      List.count_eq_zero.2 hnot
    simp [h0]

/-- Witness for `optionSet_perm_of_roundData` at a concrete round. -/
theorem optionSet_perm_of_roundData_witness :
    (shuffleOptions (fun _ => 0)
      (mkOptions ⟨"Ankylosaurus", ["Stegosaurus", "Euoplocephalus", "Nodosaurus"], "f", "v"⟩)).length = 4 ∧
    (shuffleOptions (fun _ => 0)
      (mkOptions ⟨"Ankylosaurus", ["Stegosaurus", "Euoplocephalus", "Nodosaurus"], "f", "v"⟩)).count
        "Ankylosaurus" = 1 := by
  have h := optionSet_perm_of_roundData
    ⟨"Ankylosaurus", ["Stegosaurus", "Euoplocephalus", "Nodosaurus"], "f", "v"⟩
    (fun _ => 0) rfl (fun i => Nat.zero_le i)
  exact ⟨h.1, h.2.2 (by decide)⟩

/-! ### The round lifecycle controller (src/App.tsx)

Every `useState` cell of the `App` component, plus the `nextRoundPromise`
ref, becomes a field of `Ctrl`.  The outcome of one `fetchRoundData()` call
is `Option (DinoQuestion × String)`: `some (data, img)` on success, `none`
when the catch-all handler turned an error into `null`.  The pending slot
`nextRoundPromise` stores the outcome the in-flight promise will resolve
to (`none` field value = the ref is `null`, no fetch in flight).
`fetchesIssued` is a ghost counter of round-fetch compositions started. -/

/-- Result of one `fetchRoundData()` call: `null` (= `none`) on any error. -/
abbrev FetchOutcome := Option (DinoQuestion × String)

/-- The controller state: the `useState` cells and the `nextRoundPromise`
ref of the `App` component, plus the ghost fetch counter. -/
structure Ctrl where
  status : AppStatus
  questionData : Option DinoQuestion
  imageUrl : Option String
  shuffledOptions : List String
  selectedOption : Option String
  isLoadingNext : Bool
  nextReady : Bool
  showConfetti : Bool
  stats : GameState
  nextRoundPromise : Option FetchOutcome
  fetchesIssued : Nat
deriving DecidableEq

/-- The stats update of `handleAnswer`:
`correct + (isCorrect ? 1 : 0)`, `incorrect + (isCorrect ? 0 : 1)`,
`isCorrect ? streak + 1 : 0`. -/
def updateStats (s : GameState) (isCorrect : Bool) : GameState :=
  { correct := s.correct + (if isCorrect then 1 else 0)
    incorrect := s.incorrect + (if isCorrect then 0 else 1)
    streak := if isCorrect then s.streak + 1 else 0 }

/-- `answer === questionData?.correctName`: comparing a string against
`undefined` (when `questionData` is `null`) is `false`. -/
def isCorrectChoice (s : Ctrl) (answer : String) : Bool :=
  match s.questionData with
  | some d => answer = d.correctName
  | none => false

/-- `handleAnswer` (src/App.tsx lines 130-147): guarded on
`status === READY_TO_ANSWER`; records the selection, moves to `ANSWERED`,
raises the confetti signal when correct, and applies the stats update. -/
def handleAnswer (answer : String) (s : Ctrl) : Ctrl :=
  if s.status ≠ AppStatus.READY_TO_ANSWER then s
  else
    let isCorrect := isCorrectChoice s answer
    { s with
      selectedOption := some answer
      status := AppStatus.ANSWERED
      showConfetti := if isCorrect then true else s.showConfetti
      stats := updateStats s.stats isCorrect }

/-- `preloadNextQuestion` (src/App.tsx lines 52-65): if the slot already
holds a promise it returns at once; otherwise it clears the ready flag and
starts one `fetchRoundData()` whose promise occupies the slot. -/
def preloadNextQuestion (outcome : FetchOutcome) (s : Ctrl) : Ctrl :=
  match s.nextRoundPromise with
  | some _ => s
  | none =>
    { s with
      nextReady := false
      nextRoundPromise := some outcome
      fetchesIssued := s.fetchesIssued + 1 }

/-- The `.then` continuation attached in `preloadNextQuestion`: when the
pending promise resolves with a non-null result, the ready flag is set. -/
def resolvePending (s : Ctrl) : Ctrl :=
  match s.nextRoundPromise with
  | some (some _) => { s with nextReady := true }
  | _ => s

/-- `loadNewQuestion` (src/App.tsx lines 67-127), one whole run, from entry
to the settling of the awaited promise and the `finally` block.
`rand` is the shuffle oracle; `fetch1` is the outcome of the round fetch
started here when the slot was empty (unused otherwise); `fetch2` is the
outcome of the prefetch started for the following round on success. -/
def loadNewQuestion (isInitial : Bool) (rand : Nat → Nat)
    (fetch1 fetch2 : FetchOutcome) (s : Ctrl) : Ctrl :=
  let s1 := if isInitial then { s with status := AppStatus.LOADING_QUESTION }
            else { s with isLoadingNext := true }
  let s2 := { s1 with selectedOption := none, showConfetti := false }
  let s3 := if s2.nextRoundPromise.isNone then preloadNextQuestion fetch1 s2 else s2
  let s4 := resolvePending s3
  let result := s4.nextRoundPromise.getD none
  let s5 := { s4 with nextRoundPromise := none, nextReady := false }
  match result with
  | none => { s5 with status := AppStatus.ERROR, isLoadingNext := false }
  | some (data, img) =>
    let s6 := { s5 with
      questionData := some data
      imageUrl := some img
      shuffledOptions := shuffleOptions rand (data.distractors ++ [data.correctName])
      status := AppStatus.READY_TO_ANSWER }
    let s7 := preloadNextQuestion fetch2 s6
    { s7 with isLoadingNext := false }

/-- The initial `useEffect` load: `loadNewQuestion(true)` from the fresh
`IDLE` state. -/
def requestFirstRound (rand : Nat → Nat) (fetch1 fetch2 : FetchOutcome)
    (s : Ctrl) : Ctrl :=
  loadNewQuestion true rand fetch1 fetch2 s

/-- The error-screen button (src/App.tsx line 224): `loadNewQuestion(true)`. -/
def retryFromError (rand : Nat → Nat) (fetch1 fetch2 : FetchOutcome)
    (s : Ctrl) : Ctrl :=
  loadNewQuestion true rand fetch1 fetch2 s

/-- The next-round button and the Enter shortcut: `loadNewQuestion(false)`. -/
def advanceRound (rand : Nat → Nat) (fetch1 fetch2 : FetchOutcome)
    (s : Ctrl) : Ctrl :=
  loadNewQuestion false rand fetch1 fetch2 s

/-! ### The round-fetch composition (src/App.tsx lines 40-49)

`fetchRoundData` awaits `generateDinoData()`, then awaits
`generateDinoImage(data.correctName, data.visualDescription)`, and returns
`{ data, img }`; any throw is caught and turned into `null`.  The two
remote calls are modelled by oracles (`none` = the call threw), and the
call sequence is recorded as an event trace so that the ordering and the
data flow from question to image are visible facts. -/

/-- One remote call made during a round-fetch composition, with its
arguments and its outcome (`none` = threw). -/
inductive FetchEvent where
  | question (result : Option DinoQuestion)
  | image (name : String) (description : String) (result : Option String)
deriving DecidableEq

/-- `fetchRoundData`: the composed outcome and the trace of remote calls.
`q` is the outcome of `generateDinoData()`; `imgOf name desc` the outcome
of `generateDinoImage(name, desc)`. -/
def fetchRoundData (q : Option DinoQuestion)
    (imgOf : String → String → Option String) :
    FetchOutcome × List FetchEvent :=
  match q with
  | none => (none, [FetchEvent.question none])
  | some d =>
    match imgOf d.correctName d.visualDescription with
    | none =>
      (none, [FetchEvent.question (some d),
              FetchEvent.image d.correctName d.visualDescription none])
    | some img =>
      (some (d, img), [FetchEvent.question (some d),
                       FetchEvent.image d.correctName d.visualDescription (some img)])

/-! ### `generateDinoData` (src/services/gemini.ts lines 25-69)

The remote response is modelled at two levels: `none` = the response has
no usable `text` payload (the code throws "Failed to generate dinosaur
data"); `some none` = a text payload that `JSON.parse` rejects (the parse
throws); `some (some j)` = a text payload parsing to the JSON value `j`.
The code then does `JSON.parse(response.text) as DinoQuestion` — a bare
type assertion, with no structural validation of `j`. -/

/-- A JSON value, the possible results of `JSON.parse`. -/
inductive Json where
  | null
  | bool (b : Bool)
  | num (n : Int)
  | str (s : String)
  | arr (elems : List Json)
  | obj (fields : List (String × Json))

/-- The two ways `generateDinoData` can throw: an empty text payload, or a
`JSON.parse` failure.  Both surface to callers as the same generation
failure. -/
inductive GenError where
  | noTextPayload
  | jsonParseError
deriving DecidableEq

/-- `generateDinoData`: throws on a missing text payload, throws on
unparseable text, and otherwise returns the parsed JSON value as-is
(the `as DinoQuestion` assertion checks nothing). -/
def generateDinoData (response : Option (Option Json)) : Except GenError Json :=
  match response with
  | none => Except.error GenError.noTextPayload
  | some none => Except.error GenError.jsonParseError
  | some (some j) => Except.ok j

/-- Is this JSON value a string? -/
def isStr : Json → Bool
  | Json.str _ => true
  | _ => false

/-- The structured-output schema the request declares, strengthened with
the 3-element distractor count the spec asserts: an object with
`correctName : string`, `distractors : list of exactly 3 strings`,
`funFact : string`, `visualDescription : string`. -/
def conformsToSchema : Json → Bool
  | Json.obj fields =>
    (match fields.lookup "correctName" with
     | some (Json.str _) => true
     | _ => false) &&
    (match fields.lookup "distractors" with
     | some (Json.arr xs) => xs.length == 3 && xs.all isStr
     | _ => false) &&
    (match fields.lookup "funFact" with
     | some (Json.str _) => true
     | _ => false) &&
    (match fields.lookup "visualDescription" with
     | some (Json.str _) => true
     | _ => false)
  | _ => false

/-- The `distractors` field of a parsed payload, when it is an array. -/
def distractorsOf : Json → Option (List Json)
  | Json.obj fields =>
    match fields.lookup "distractors" with
    | some (Json.arr xs) => some xs
    | _ => none
  | _ => none

/-! ### Ranks (src/App.tsx lines 9-16 and 177) -/

/-- One entry of the `RANKS` table. -/
structure Rank where
  threshold : Nat
  title : String
deriving DecidableEq

/-- The `RANKS` table. -/
def RANKS : List Rank :=
  [⟨0, "Lab Intern"⟩, ⟨5, "Field Researcher"⟩, ⟨10, "Park Ranger"⟩,
   ⟨20, "Lead Paleontologist"⟩, ⟨35, "Dino Whisperer"⟩, ⟨50, "Time Traveler"⟩]

/-- `currentRank` (src/App.tsx line 177):
`[...RANKS].reverse().find(r => stats.correct >= r.threshold) || RANKS[0]`. -/
def currentRank (c : Nat) : Rank :=
  (RANKS.reverse.find? (fun r => decide (r.threshold ≤ c))).getD ⟨0, "Lab Intern"⟩

/-- The rank the spec describes: the entry with the largest threshold `≤ c`
among the thresholds 0, 5, 10, 20, 35, 50. -/
def rankSpec (c : Nat) : Rank :=
  if 50 ≤ c then ⟨50, "Time Traveler"⟩
  else if 35 ≤ c then ⟨35, "Dino Whisperer"⟩
  else if 20 ≤ c then ⟨20, "Lead Paleontologist"⟩
  else if 10 ≤ c then ⟨10, "Park Ranger"⟩
  else if 5 ≤ c then ⟨5, "Field Researcher"⟩
  else ⟨0, "Lab Intern"⟩

/-! ### Answer sequences (for the streak invariant) -/

/-- A sequence of accepted answers folded through the stats update, each
`Bool` recording whether that answer was correct. -/
def applyAnswers (s : GameState) (bs : List Bool) : GameState :=
  bs.foldl updateStats s

/-- The length of the trailing run of correct answers. -/
def trailingRun (bs : List Bool) : Nat :=
  (bs.reverse.takeWhile id).length

/-! ### Characterisations of `loadNewQuestion`, by the shape of the slot -/

theorem load_of_pending_fail (b : Bool) (rand : Nat → Nat)
    (f1 f2 : FetchOutcome) (s : Ctrl) (h : s.nextRoundPromise = some none) :
    loadNewQuestion b rand f1 f2 s =
      { s with
        selectedOption := none
        showConfetti := false
        nextRoundPromise := none
        nextReady := false
        status := AppStatus.ERROR
        isLoadingNext := false } := by
  cases b <;> simp [loadNewQuestion, resolvePending, preloadNextQuestion, h]

theorem load_of_pending_success (b : Bool) (rand : Nat → Nat)
    (f1 f2 : FetchOutcome) (s : Ctrl) (d : DinoQuestion) (img : String)
    (h : s.nextRoundPromise = some (some (d, img))) :
    loadNewQuestion b rand f1 f2 s =
      { s with
        selectedOption := none
        showConfetti := false
        questionData := some d
        imageUrl := some img
        shuffledOptions := shuffleOptions rand (d.distractors ++ [d.correctName])
        status := AppStatus.READY_TO_ANSWER
        nextRoundPromise := some f2
        nextReady := false
        fetchesIssued := s.fetchesIssued + 1
        isLoadingNext := false } := by
  cases b <;> simp [loadNewQuestion, resolvePending, preloadNextQuestion, h]

theorem load_of_empty_fail (b : Bool) (rand : Nat → Nat)
    (f2 : FetchOutcome) (s : Ctrl) (h : s.nextRoundPromise = none) :
    loadNewQuestion b rand none f2 s =
      { s with
        selectedOption := none
        showConfetti := false
        nextRoundPromise := none
        nextReady := false
        status := AppStatus.ERROR
        isLoadingNext := false
        fetchesIssued := s.fetchesIssued + 1 } := by
  cases b <;> simp [loadNewQuestion, resolvePending, preloadNextQuestion, h]

theorem load_of_empty_success (b : Bool) (rand : Nat → Nat)
    (f2 : FetchOutcome) (s : Ctrl) (d : DinoQuestion) (img : String)
    (h : s.nextRoundPromise = none) :
    loadNewQuestion b rand (some (d, img)) f2 s =
      { s with
        selectedOption := none
        showConfetti := false
        questionData := some d
        imageUrl := some img
        shuffledOptions := shuffleOptions rand (d.distractors ++ [d.correctName])
        status := AppStatus.READY_TO_ANSWER
        nextRoundPromise := some f2
        nextReady := false
        fetchesIssued := s.fetchesIssued + 2
        isLoadingNext := false } := by
  cases b <;> simp [loadNewQuestion, resolvePending, preloadNextQuestion, h]

/-! ### Basic facts about `handleAnswer` -/

theorem handleAnswer_not_ready (a : String) (s : Ctrl)
    (h : s.status ≠ AppStatus.READY_TO_ANSWER) : handleAnswer a s = s := by
  unfold handleAnswer
  rw [if_pos h]

theorem handleAnswer_ready (a : String) (s : Ctrl)
    (h : s.status = AppStatus.READY_TO_ANSWER) :
    handleAnswer a s =
      { s with
        selectedOption := some a
        status := AppStatus.ANSWERED
        showConfetti := if isCorrectChoice s a then true else s.showConfetti
        stats := updateStats s.stats (isCorrectChoice s a) } := by
  unfold handleAnswer
  rw [if_neg (by simp [h])]

/-! ### Folding a sequence of answers through the stats update -/

theorem applyAnswers_append (s : GameState) (bs : List Bool) (b : Bool) :
    applyAnswers s (bs ++ [b]) = updateStats (applyAnswers s bs) b := by
  simp [applyAnswers, List.foldl_append]

theorem trailingRun_append_true (bs : List Bool) :
    trailingRun (bs ++ [true]) = trailingRun bs + 1 := by
  simp [trailingRun, List.reverse_append, List.takeWhile_cons]

theorem trailingRun_append_false (bs : List Bool) :
    trailingRun (bs ++ [false]) = 0 := by
  simp [trailingRun, List.reverse_append, List.takeWhile_cons]

theorem applyAnswers_run (bs : List Bool) :
    applyAnswers ⟨0, 0, 0⟩ bs =
      ⟨bs.count true, bs.count false, trailingRun bs⟩ := by
  induction bs using List.reverseRecOn with
  | nil => rfl
  | append_singleton bs b ih =>
    rw [applyAnswers_append, ih]
    cases b
    · simp [updateStats, trailingRun_append_false, List.count_append]
    · simp [updateStats, trailingRun_append_true, List.count_append]

/-! ### Concrete states used by witnesses -/

/-- A concrete round. -/
def dq0 : DinoQuestion :=
  ⟨"Ankylosaurus", ["Stegosaurus", "Euoplocephalus", "Nodosaurus"], "fact", "desc"⟩

/-- A concrete controller state, answerable, with an empty prefetch slot. -/
def ctrlReady : Ctrl :=
  { status := AppStatus.READY_TO_ANSWER
    questionData := some dq0
    imageUrl := some "img"
    shuffledOptions := ["Stegosaurus", "Ankylosaurus", "Nodosaurus", "Euoplocephalus"]
    selectedOption := none
    isLoadingNext := false
    nextReady := false
    showConfetti := false
    stats := ⟨2, 1, 2⟩
    nextRoundPromise := none
    fetchesIssued := 1 }

/-- The same state with an occupied prefetch slot. -/
def ctrlBusy : Ctrl :=
  { ctrlReady with nextRoundPromise := some (some (dq0, "img2")) }

/-- C2: starting from fresh stats, a sequence of accepted answers leaves
`streak` equal to the length of the trailing run of correct answers and
the two counters equal to the numbers of correct and incorrect answers;
an accepted `handleAnswer` applies exactly this stats update, and no other
controller operation touches the stats record. -/
theorem streak_invariant :
    (∀ bs : List Bool,
      applyAnswers ⟨0, 0, 0⟩ bs =
        ⟨bs.count true, bs.count false, trailingRun bs⟩) ∧
    (∀ (s : Ctrl) (a : String), s.status = AppStatus.READY_TO_ANSWER →
      (handleAnswer a s).stats = updateStats s.stats (isCorrectChoice s a)) ∧
    (∀ (s : Ctrl) (o : FetchOutcome), (preloadNextQuestion o s).stats = s.stats) ∧
    (∀ s : Ctrl, (resolvePending s).stats = s.stats) ∧
    (∀ (s : Ctrl) (b : Bool) (rand : Nat → Nat) (f1 f2 : FetchOutcome),
      (loadNewQuestion b rand f1 f2 s).stats = s.stats) := by
  refine ⟨applyAnswers_run, ?_, ?_, ?_, ?_⟩
  · intro s a h
    rw [handleAnswer_ready a s h]
  · intro s o
    unfold preloadNextQuestion
    split <;> rfl
  · intro s
    unfold resolvePending
    split <;> rfl
  · intro s b rand f1 f2
    rcases hp : s.nextRoundPromise with _ | (_ | ⟨d, img⟩)
    · rcases f1 with _ | ⟨d, img⟩
      · rw [load_of_empty_fail b rand f2 s hp]
      · rw [load_of_empty_success b rand f2 s d img hp]
    · rw [load_of_pending_fail b rand f1 f2 s hp]
    · rw [load_of_pending_success b rand f1 f2 s d img hp]

/-- Witness for `streak_invariant`: a concrete answer sequence and a
concrete accepted answer. -/
theorem streak_invariant_witness :
    applyAnswers ⟨0, 0, 0⟩ [true, false, true, true] = ⟨3, 1, 2⟩ ∧
    (handleAnswer "Ankylosaurus" ctrlReady).stats =
      updateStats ctrlReady.stats (isCorrectChoice ctrlReady "Ankylosaurus") := by
  constructor
  · rw [streak_invariant.1 [true, false, true, true]]
    decide
  · exact streak_invariant.2.1 ctrlReady "Ankylosaurus" rfl

/-- C3: `handleAnswer` invoked outside `READY_TO_ANSWER` is a no-op that
leaves the whole controller state unchanged, so two calls in succession
apply the stats update exactly once (the second call, made in `ANSWERED`,
changes nothing). -/
theorem submitAnswer_guarded (s : Ctrl) (a b : String) :
    (s.status ≠ AppStatus.READY_TO_ANSWER → handleAnswer a s = s) ∧
    handleAnswer b (handleAnswer a s) = handleAnswer a s := by
  constructor
  · intro h
    exact handleAnswer_not_ready a s h
  · by_cases h : s.status = AppStatus.READY_TO_ANSWER
    · apply handleAnswer_not_ready
      rw [handleAnswer_ready a s h]
      simp
    · rw [handleAnswer_not_ready a s h, handleAnswer_not_ready b s h]

/-- Witness for `submitAnswer_guarded`: a second submission on an already
answered state changes nothing. -/
theorem submitAnswer_guarded_witness :
    handleAnswer "Stegosaurus" { ctrlReady with status := AppStatus.ANSWERED } =
      { ctrlReady with status := AppStatus.ANSWERED } ∧
    handleAnswer "Stegosaurus" (handleAnswer "Ankylosaurus" ctrlReady) =
      handleAnswer "Ankylosaurus" ctrlReady := by
  constructor
  · exact (submitAnswer_guarded { ctrlReady with status := AppStatus.ANSWERED }
      "Stegosaurus" "Stegosaurus").1 (by decide)
  · exact (submitAnswer_guarded ctrlReady "Ankylosaurus" "Stegosaurus").2

/-- C4: starting a background prefetch while the slot is occupied is a
no-op, so two invocations before the first resolves fill the slot once and
issue exactly one round-fetch composition. -/
theorem prefetch_singleton (s : Ctrl) (o1 o2 : FetchOutcome) :
    (s.nextRoundPromise ≠ none → preloadNextQuestion o1 s = s) ∧
    (s.nextRoundPromise = none →
      preloadNextQuestion o2 (preloadNextQuestion o1 s) = preloadNextQuestion o1 s ∧
      (preloadNextQuestion o1 s).fetchesIssued = s.fetchesIssued + 1) := by
  constructor
  · intro h
    unfold preloadNextQuestion
    split
    · rfl
    · next h' => exact absurd h' h
  · intro h
    simp [preloadNextQuestion, h]

/-- Witness for `prefetch_singleton`: on an empty slot, two invocations
issue one fetch; on an occupied slot, the invocation changes nothing. -/
theorem prefetch_singleton_witness :
    preloadNextQuestion none (preloadNextQuestion (some (dq0, "a")) ctrlReady) =
      preloadNextQuestion (some (dq0, "a")) ctrlReady ∧
    (preloadNextQuestion (some (dq0, "a")) ctrlReady).fetchesIssued =
      ctrlReady.fetchesIssued + 1 ∧
    preloadNextQuestion none ctrlBusy = ctrlBusy := by
  refine ⟨?_, ?_, ?_⟩
  · exact ((prefetch_singleton ctrlReady (some (dq0, "a")) none).2 rfl).1
  · exact ((prefetch_singleton ctrlReady (some (dq0, "a")) none).2 rfl).2
  · exact (prefetch_singleton ctrlBusy none none).1 (by simp [ctrlBusy, ctrlReady])

/-- C9: an accepted answer is scored correct exactly when it equals the
current round's `correctName`; membership in the displayed option set is
never checked, so any string - in particular one not among the four
options - is accepted, counted as incorrect when it differs from
`correctName`, and still moves the state to `ANSWERED`. -/
theorem answer_scored_by_name_only (s : Ctrl) (a : String) (d : DinoQuestion)
    (h : s.status = AppStatus.READY_TO_ANSWER)
    (hq : s.questionData = some d) :
    (handleAnswer a s).status = AppStatus.ANSWERED ∧
    (handleAnswer a s).stats = updateStats s.stats (decide (a = d.correctName)) ∧
    (a ∉ s.shuffledOptions → a ≠ d.correctName →
      (handleAnswer a s).stats.incorrect = s.stats.incorrect + 1 ∧
      (handleAnswer a s).stats.streak = 0) := by
  rw [handleAnswer_ready a s h]
  refine ⟨rfl, ?_, ?_⟩
  · simp [isCorrectChoice, hq]
  · intro _ hne
    simp [isCorrectChoice, hq, hne, updateStats]

/-- Witness for `answer_scored_by_name_only`: the submitted string is not
one of the four displayed options, yet it is accepted and counted as an
incorrect answer. -/
theorem answer_scored_by_name_only_witness :
    "Brachiosaurus" ∉ ctrlReady.shuffledOptions ∧
    (handleAnswer "Brachiosaurus" ctrlReady).status = AppStatus.ANSWERED ∧
    (handleAnswer "Brachiosaurus" ctrlReady).stats.incorrect =
      ctrlReady.stats.incorrect + 1 ∧
    (handleAnswer "Brachiosaurus" ctrlReady).stats.streak = 0 := by
  have h := answer_scored_by_name_only ctrlReady "Brachiosaurus" dq0 rfl rfl
  have hmem : "Brachiosaurus" ∉ ctrlReady.shuffledOptions := by decide
  have hne : "Brachiosaurus" ≠ dq0.correctName := by decide
  exact ⟨hmem, h.1, (h.2.2 hmem hne).1, (h.2.2 hmem hne).2⟩

/-- C5: in a round-fetch composition the image call appears in the trace
only after the question call has resolved successfully, and is invoked
with that result's `correctName` and `visualDescription`; if either call
fails the composition yields `none`, and a `none` outcome installs nothing
when awaited (the fetched question text is never reused). -/
theorem roundFetch_composition (q : Option DinoQuestion)
    (imgOf : String → String → Option String) :
    (∀ n de r, FetchEvent.image n de r ∈ (fetchRoundData q imgOf).2 →
      ∃ d, q = some d ∧ n = d.correctName ∧ de = d.visualDescription ∧
        (fetchRoundData q imgOf).2 =
          [FetchEvent.question (some d), FetchEvent.image n de r]) ∧
    ((fetchRoundData q imgOf).1 = none ↔
      q = none ∨ ∃ d, q = some d ∧ imgOf d.correctName d.visualDescription = none) ∧
    (∀ d, q = some d → imgOf d.correctName d.visualDescription = none →
      (fetchRoundData q imgOf).1 = none) ∧
    (∀ (s : Ctrl) (b : Bool) (rand : Nat → Nat) (f2 : FetchOutcome),
      s.nextRoundPromise = some (fetchRoundData q imgOf).1 →
      (fetchRoundData q imgOf).1 = none →
      (loadNewQuestion b rand none f2 s).questionData = s.questionData ∧
      (loadNewQuestion b rand none f2 s).imageUrl = s.imageUrl ∧
      (loadNewQuestion b rand none f2 s).status = AppStatus.ERROR) := by
  refine ⟨?_, ?_, ?_, ?_⟩
  · intro n de r hmem
    rcases q with _ | d
    · simp [fetchRoundData] at hmem
    · rcases himg : imgOf d.correctName d.visualDescription with _ | img <;>
        simp [fetchRoundData, himg] at hmem <;>
        exact ⟨d, rfl, hmem.1, hmem.2.1, by simp [fetchRoundData, himg, hmem.1, hmem.2]⟩
  · rcases q with _ | d
    · simp [fetchRoundData]
    · rcases himg : imgOf d.correctName d.visualDescription with _ | img <;>
        simp [fetchRoundData, himg]
  · intro d hd himg
    subst hd
    simp [fetchRoundData, himg]
  · intro s b rand f2 hslot hnone
    rw [hnone] at hslot
    rw [load_of_pending_fail b rand none f2 s hslot]
    exact ⟨rfl, rfl, rfl⟩

/-- Witness for `roundFetch_composition`: a concrete composition whose
image call fails after a successful question call. -/
theorem roundFetch_composition_witness :
    (fetchRoundData (some dq0) (fun _ _ => (none : Option String))).1 = none ∧
    (fetchRoundData (some dq0) (fun _ _ => (none : Option String))).2 =
      [FetchEvent.question (some dq0),
       FetchEvent.image "Ankylosaurus" "desc" none] ∧
    (loadNewQuestion false (fun _ => 0) none none
      { ctrlReady with nextRoundPromise := some none }).status = AppStatus.ERROR := by
  have h := roundFetch_composition (some dq0) (fun _ _ => (none : Option String))
  refine ⟨h.2.2.1 dq0 rfl rfl, rfl, ?_⟩
  exact (h.2.2.2 { ctrlReady with nextRoundPromise := some none }
    false (fun _ => 0) none rfl (h.2.2.1 dq0 rfl rfl)).2.2

/-- C6: a failed round fetch - whether the fetch issued by the first-round
request or a pending prefetch resolving to `null` - lands the controller in
`ERROR` with an empty slot and no further fetch issued, and the
error-screen retry is literally the same operation as the first-round
request: it clears the error, issues a fresh fetch when the slot is empty,
and reaches `READY_TO_ANSWER` on success. -/
theorem failure_to_error_and_retry (b : Bool) (rand : Nat → Nat)
    (f1 f2 : FetchOutcome) (s : Ctrl) :
    (retryFromError rand f1 f2 s = requestFirstRound rand f1 f2 s) ∧
    (s.nextRoundPromise = some none →
      (loadNewQuestion b rand f1 f2 s).status = AppStatus.ERROR ∧
      (loadNewQuestion b rand f1 f2 s).nextRoundPromise = none ∧
      (loadNewQuestion b rand f1 f2 s).fetchesIssued = s.fetchesIssued) ∧
    (s.nextRoundPromise = none → f1 = none →
      (loadNewQuestion b rand f1 f2 s).status = AppStatus.ERROR ∧
      (loadNewQuestion b rand f1 f2 s).nextRoundPromise = none ∧
      (loadNewQuestion b rand f1 f2 s).fetchesIssued = s.fetchesIssued + 1) ∧
    (∀ (d : DinoQuestion) (img : String),
      s.status = AppStatus.ERROR → s.nextRoundPromise = none →
      (retryFromError rand (some (d, img)) f2 s).status = AppStatus.READY_TO_ANSWER ∧
      (retryFromError rand (some (d, img)) f2 s).questionData = some d ∧
      (retryFromError rand (some (d, img)) f2 s).fetchesIssued = s.fetchesIssued + 2) := by
  refine ⟨rfl, ?_, ?_, ?_⟩
  · intro h
    rw [load_of_pending_fail b rand f1 f2 s h]
    exact ⟨rfl, rfl, rfl⟩
  · intro h hf
    subst hf
    rw [load_of_empty_fail b rand f2 s h]
    exact ⟨rfl, rfl, rfl⟩
  · intro d img _ h
    unfold retryFromError
    rw [load_of_empty_success true rand f2 s d img h]
    exact ⟨rfl, rfl, rfl⟩

/-- Witness for `failure_to_error_and_retry`: a failing pending prefetch
awaited by the next-round advance, then a successful retry from the
resulting error state. -/
theorem failure_to_error_and_retry_witness :
    (loadNewQuestion false (fun _ => 0) none none
        { ctrlReady with nextRoundPromise := some none }).status =
      AppStatus.ERROR ∧
    (retryFromError (fun _ => 0) (some (dq0, "img3")) none
        { ctrlReady with status := AppStatus.ERROR }).status =
      AppStatus.READY_TO_ANSWER := by
  constructor
  · exact ((failure_to_error_and_retry false (fun _ => 0) none none
      { ctrlReady with nextRoundPromise := some none }).2.1 rfl).1
  · exact ((failure_to_error_and_retry false (fun _ => 0) (some (dq0, "img3")) none
      { ctrlReady with status := AppStatus.ERROR }).2.2.2 dq0 "img3" rfl rfl).1

/-! ### C7: the stale prefetch after a retry -/

/-- A stale round sitting in the prefetch slot. -/
def staleQ : DinoQuestion :=
  ⟨"Carnotaurus", ["Allosaurus", "Majungasaurus", "Ceratosaurus"], "fact2", "desc2"⟩

/-- An error state whose prefetch slot still holds an unresolved fetch
that will succeed with `staleQ`. -/
def errWithPending : Ctrl :=
  { status := AppStatus.ERROR
    questionData := none
    imageUrl := none
    shuffledOptions := []
    selectedOption := none
    isLoadingNext := false
    nextReady := false
    showConfetti := false
    stats := ⟨1, 2, 0⟩
    nextRoundPromise := some (some (staleQ, "stale-img"))
    fetchesIssued := 3 }

/-- Counterexample to C7: invoking the retry while a background prefetch is
outstanding does NOT discard the stale result - the retry awaits the
outstanding promise and installs its `RoundData` and `ImageReference` as
the current round. -/
theorem stale_prefetch_installed_cex :
    errWithPending.status = AppStatus.ERROR ∧
    errWithPending.nextRoundPromise = some (some (staleQ, "stale-img")) ∧
    errWithPending.nextReady = false ∧
    (retryFromError (fun _ => 0) none none errWithPending).questionData =
      some staleQ ∧
    (retryFromError (fun _ => 0) none none errWithPending).imageUrl =
      some "stale-img" := by
  exact ⟨rfl, rfl, rfl, rfl, rfl⟩

/-- C7 as amended: if the retry is invoked while a background prefetch is
outstanding, the controller awaits that prefetch, installs its result as
the current round, and only then clears the slot (immediately refilling it
with the next prefetch); the stale result is reused, not discarded, and no
fresh fetch is issued for the current round. -/
theorem stale_prefetch_reused (rand : Nat → Nat) (f1 f2 : FetchOutcome)
    (s : Ctrl) (d : DinoQuestion) (img : String)
    (h : s.nextRoundPromise = some (some (d, img))) :
    (retryFromError rand f1 f2 s).questionData = some d ∧
    (retryFromError rand f1 f2 s).imageUrl = some img ∧
    (retryFromError rand f1 f2 s).status = AppStatus.READY_TO_ANSWER ∧
    (retryFromError rand f1 f2 s).nextRoundPromise = some f2 ∧
    (retryFromError rand f1 f2 s).fetchesIssued = s.fetchesIssued + 1 := by
  unfold retryFromError
  rw [load_of_pending_success true rand f1 f2 s d img h]
  exact ⟨rfl, rfl, rfl, rfl, rfl⟩

/-- Witness for `stale_prefetch_reused` at the concrete error state. -/
theorem stale_prefetch_reused_witness :
    (retryFromError (fun _ => 0) none none errWithPending).questionData =
      some staleQ ∧
    (retryFromError (fun _ => 0) none none errWithPending).status =
      AppStatus.READY_TO_ANSWER ∧
    (retryFromError (fun _ => 0) none none errWithPending).fetchesIssued =
      errWithPending.fetchesIssued + 1 := by
  have h := stale_prefetch_reused (fun _ => 0) none none errWithPending
    staleQ "stale-img" rfl
  exact ⟨h.1, h.2.2.1, h.2.2.2.2⟩

/-! ### C8: what `generateDinoData` actually validates -/

/-- A well-formed-JSON response whose shape does not match the declared
schema: only two distractors. -/
def malformedPayload : Json :=
  Json.obj
    [("correctName", Json.str "Ankylosaurus"),
     ("distractors", Json.arr [Json.str "Stegosaurus", Json.str "Euoplocephalus"]),
     ("funFact", Json.str "fact"),
     ("visualDescription", Json.str "desc")]

/-- Counterexample to C8: a parseable response with only 2 distractors is
NOT treated as a generation error - `generateDinoData` returns it
unchanged, so the returned round data does not have exactly 3 distractors. -/
theorem generateDinoData_no_validation_cex :
    generateDinoData (some (some malformedPayload)) = Except.ok malformedPayload ∧
    conformsToSchema malformedPayload = false ∧
    distractorsOf malformedPayload =
      some [Json.str "Stegosaurus", Json.str "Euoplocephalus"] ∧
    (distractorsOf malformedPayload).map List.length = some 2 := by
  exact ⟨rfl, by decide, rfl, rfl⟩

/-- C8 as amended: `generateDinoData` fails exactly when the remote
response has no usable text payload or the text is not parseable as JSON;
a parseable payload is returned without any structural validation (the
`as DinoQuestion` assertion checks nothing), so the 3-distractor schema is
not enforced on the returned value. -/
theorem generateDinoData_error_iff (response : Option (Option Json)) :
    ((∃ e, generateDinoData response = Except.error e) ↔
      response = none ∨ response = some none) ∧
    (∀ j, generateDinoData (some (some j)) = Except.ok j) := by
  constructor
  · constructor
    · rintro ⟨e, he⟩
      rcases response with _ | (_ | j)
      · exact Or.inl rfl
      · exact Or.inr rfl
      · simp [generateDinoData] at he
    · rintro (rfl | rfl)
      · exact ⟨GenError.noTextPayload, rfl⟩
      · exact ⟨GenError.jsonParseError, rfl⟩
  · intro j
    rfl

/-! ### C10: the rank display -/

theorem currentRank_eq (c : Nat) : currentRank c = rankSpec c := by
  have hrev : RANKS.reverse =
      [⟨50, "Time Traveler"⟩, ⟨35, "Dino Whisperer"⟩, ⟨20, "Lead Paleontologist"⟩,
       ⟨10, "Park Ranger"⟩, ⟨5, "Field Researcher"⟩, ⟨0, "Lab Intern"⟩] := rfl
  unfold currentRank rankSpec
  rw [hrev]
  by_cases h50 : 50 ≤ c
  · simp [List.find?, h50]
  · by_cases h35 : 35 ≤ c
    · simp [List.find?, h50, h35]
    · by_cases h20 : 20 ≤ c
      · simp [List.find?, h50, h35, h20]
      · by_cases h10 : 10 ≤ c
        · simp [List.find?, h50, h35, h20, h10]
        · by_cases h5 : 5 ≤ c
          · simp [List.find?, h50, h35, h20, h10, h5]
          · simp [List.find?, h50, h35, h20, h10, h5]

/-- C10: the displayed rank is a total function of the correct count: it is
the `RANKS` entry with the largest threshold not exceeding the count
(threshold 0 as the default), and its threshold is monotone in the count. -/
theorem currentRank_spec (c : Nat) :
    currentRank c = rankSpec c ∧
    (currentRank c).threshold ≤ c ∧
    currentRank c ∈ RANKS ∧
    (∀ r ∈ RANKS, r.threshold ≤ c → r.threshold ≤ (currentRank c).threshold) ∧
    (∀ c', c ≤ c' → (currentRank c).threshold ≤ (currentRank c').threshold) := by
  refine ⟨currentRank_eq c, ?_, ?_, ?_, ?_⟩
  · rw [currentRank_eq]
    unfold rankSpec
    split_ifs <;> simp <;> omega
  · rw [currentRank_eq]
    unfold rankSpec
    split_ifs <;> simp [RANKS]
  · intro r hr hle
    rw [currentRank_eq]
    simp only [RANKS, List.mem_cons, List.not_mem_nil, or_false] at hr
    unfold rankSpec
    rcases hr with rfl | rfl | rfl | rfl | rfl | rfl <;>
      split_ifs <;> simp_all
  · intro c' hcc
    rw [currentRank_eq, currentRank_eq]
    unfold rankSpec
    split_ifs <;> simp <;> omega

/-- Witness for `currentRank_spec` at a concrete count. -/
theorem currentRank_spec_witness :
    currentRank 12 = ⟨10, "Park Ranger"⟩ ∧
    (currentRank 12).threshold ≤ 12 ∧
    (currentRank 12).threshold ≤ (currentRank 37).threshold := by
  have h := currentRank_spec 12
  refine ⟨?_, h.2.1, h.2.2.2.2 37 (by omega)⟩
  rw [h.1]
  decide

end DinoGame
